import Mathlib

/-!
# Verification of the visual-system-simulator core

Shallow embedding of the three source files of the repository:

* `src/vss/src/passes/lens/mod.rs` — the `Lens` pass: `update_params`
  (presbyopia and myopia/hyperopia optical-uniform computation),
  `update_io` (source/target rebinding, panicking on YUV sources).
* `src/vss/src/pipeline/texture.rs` — `load_highres_normalmap`
  (packed 32-bit normal-map decoding).
* `src/vss-desktop/src/main.rs` — the driver loop.

Rust `f32`/`f64` arithmetic is modelled with exact rationals (`ℚ`);
the single `+∞` value used by `u_far_point` is modelled with the
two-constructor type `ExtQ`.  GPU handles (texture views, samplers,
render targets) are opaque and modelled as natural-number identifiers.
-/

namespace VSS

/-- Dynamically-typed parameter value: `Value::Bool` or `Value::Number`
(Rust `f64`, modelled as `ℚ`). -/
inductive Value where
  | bool (b : Bool)
  | number (q : ℚ)
deriving DecidableEq

/-- `ValueMap`: a mapping from parameter name to `Value`; a key that is
absent maps to `none`. -/
def ValueMap : Type := String → Option Value

/-- An `f32` value that is either finite or `+∞` (`f32::INFINITY`),
as used by the `u_far_point` uniform. -/
inductive ExtQ where
  | inf
  | fin (q : ℚ)
deriving DecidableEq

/-- Rust `f32::min` of a finite value against a possibly-infinite one:
`min(q, +∞) = q`. -/
def ExtQ.minFin (q : ℚ) : ExtQ → ℚ
  | .inf => q
  | .fin r => min q r

/-- Comparison `q ≤ e` of a finite value against a possibly-infinite one. -/
def ExtQ.leFin (q : ℚ) : ExtQ → Prop
  | .inf => True
  | .fin r => q ≤ r

instance (q : ℚ) : (e : ExtQ) → Decidable (ExtQ.leFin q e)
  | .inf => isTrue trivial
  | .fin r => inferInstanceAs (Decidable (q ≤ r))

/-- The `pipe::Data` uniform/binding block of the `Lens` pass
(`gfx_defines!` in `src/vss/src/passes/lens/mod.rs`).  Texture samplers
are `(view, sampler)` identifier pairs, the render target a single
identifier. -/
@[ext]
structure PipeData where
  u_stereo : Int
  u_active : Int
  u_samplecount : Int
  u_depth_min : ℚ
  u_depth_max : ℚ
  u_near_point : ℚ
  u_far_point : ExtQ
  u_near_vision_factor : ℚ
  u_far_vision_factor : ℚ
  s_color : Nat × Nat
  s_depth : Nat × Nat
  s_normal : Nat × Nat
  s_cornea : Nat × Nat
  rt_color : Nat
deriving DecidableEq

/-- `DIOPTRES_SCALING` constant from `lens/mod.rs`. -/
def DIOPTRES_SCALING : ℚ := 0.332763369417523

/-- The uniform values installed by `Lens::new` (handle identifiers are
arbitrary opaque fresh ids, taken to be `0`). -/
def initPipeData : PipeData :=
  { u_stereo := 0
    u_active := 0
    u_samplecount := 4
    u_depth_min := 200
    u_depth_max := 5000
    u_near_point := 0
    u_far_point := .inf
    u_near_vision_factor := 0
    u_far_vision_factor := 0
    s_color := (0, 0)
    s_depth := (0, 0)
    s_normal := (0, 0)
    s_cornea := (0, 0)
    rt_color := 0 }

/-- The "default values" block at the top of `Lens::update_params`
(lines 118–123 of `lens/mod.rs`). -/
def resetDefaults (s : PipeData) : PipeData :=
  { s with
    u_near_point := 0
    u_far_point := .inf
    u_near_vision_factor := 0
    u_far_vision_factor := 0
    u_active := 0 }

/-- The presbyopia branch of `Lens::update_params`
(lines 125–132 of `lens/mod.rs`). -/
def presbyopiaStep (params : ValueMap) (s : PipeData) : PipeData :=
  match params "presbyopia_onoff" with
  | some (.bool true) =>
    match params "presbyopia_near_point" with
    | some (.number near_point) =>
      { s with
        u_active := 1
        u_near_point := near_point * 10
        u_near_vision_factor := 1 }
    | _ => s
  | _ => s

/-- The myopia/hyperopia branch of `Lens::update_params`
(lines 134–159 of `lens/mod.rs`). -/
def myopiahyperopiaStep (params : ValueMap) (s : PipeData) : PipeData :=
  match params "myopiahyperopia_onoff" with
  | some (.bool true) =>
    match params "myopiahyperopia_mnh" with
    | some (.number mnh) =>
      let s := { s with u_active := 1 }
      let dioptres : ℚ := (mnh / 50 - 1) * 3
      if dioptres < 0 then
        -- myopia
        let s := { s with u_far_point := .fin (-1000 / dioptres) }
        let s := { s with u_near_point := ExtQ.minFin s.u_near_point s.u_far_point }
        let vision_factor := 1 - dioptres * DIOPTRES_SCALING
        { s with u_far_vision_factor := max s.u_far_vision_factor vision_factor }
      else if dioptres > 0 then
        -- hyperopia
        let hyperopia_near_point := 1000 / (4.4 - dioptres)
        let s := { s with u_near_point := max s.u_near_point hyperopia_near_point }
        let vision_factor := 1 + dioptres * DIOPTRES_SCALING
        { s with u_near_vision_factor := max s.u_near_vision_factor vision_factor }
      else
        s
    | _ => s
  | _ => s

/-- `Lens::update_params`: defaults reset, then the presbyopia branch,
then the myopia/hyperopia branch, in source order. -/
def update_params (s : PipeData) (params : ValueMap) : PipeData :=
  myopiahyperopiaStep params (presbyopiaStep params (resetDefaults s))

/-- `DeviceSource` variants (payloads are opaque GPU handle ids). -/
inductive DeviceSource where
  | rgb (rgba8 : Nat)
  | rgbDepth (rgba8 : Nat) (d : Nat)
  | yuv (y : Nat) (u : Nat) (v : Nat)
deriving DecidableEq

/-- `Lens::update_io` (lines 94–115 of `lens/mod.rs`).  The Rust code
panics on a `Yuv` source; the panic is modelled as `none`. -/
def update_io (s : PipeData) (target : Nat) (_target_size : Nat × Nat)
    (source : DeviceSource) (source_sampler : Nat) (_source_size : Nat × Nat)
    (stereo : Bool) : Option PipeData :=
  let s := { s with u_stereo := if stereo then 1 else 0 }
  let s := { s with rt_color := target }
  match source with
  | .rgb rgba8 => some { s with s_color := (rgba8, source_sampler) }
  | .rgbDepth rgba8 d =>
    some { s with s_color := (rgba8, source_sampler), s_depth := (d, source_sampler) }
  | .yuv _ _ _ => none

/-! ## Texture pipeline: `load_highres_normalmap` -/

/-- A decoded, vertically flipped RGBA image as produced by
`image::load(..).flipv().to_rgba()`: raw bytes in RGBA order,
`data.length = width * height * 4`, each byte `< 256`. -/
structure DecodedImage where
  width : Nat
  height : Nat
  data : List Nat

/-- The packed `u32` computed for pixel `i` inside the decode loop of
`load_highres_normalmap` (lines 226–232 of `texture.rs`):
`alpha<<24 | red<<16 | green<<8 | blue`, where the raw RGBA bytes of
pixel `i` sit at indices `4*i .. 4*i+3`.  The `% 2^32` models `u32`
arithmetic (a no-op when the inputs are bytes). -/
def pack32 (raw : List Nat) (i : Nat) : Nat :=
  ((raw.getD (i * 4 + 3) 0 <<< 24) ||| (raw.getD (i * 4) 0 <<< 16) |||
    (raw.getD (i * 4 + 1) 0 <<< 8) ||| raw.getD (i * 4 + 2) 0) % 2 ^ 32

/-- The `data_float` vector built by the decode loop: one float per
RGBA pixel, `packed / u32::max_value()` (exact rational model of the
`f32` arithmetic). -/
def toFloatVec (raw : List Nat) : List ℚ :=
  (List.range (raw.length / 4)).map fun i => (pack32 raw i : ℚ) / (2 ^ 32 - 1)

/-- The texture produced by `load_highres_normalmap`: the descriptor
uses surface `R32_G32_B32` (3 channels of 32-bit floats) while the
shader resource view types it as `R32_G32_B32_A32` / `[f32; 4]`
(4 channels); the kind is `(width / 3) × height`. -/
structure HighresNormalmap where
  texWidth : Nat
  texHeight : Nat
  levels : Nat
  surfaceChannels : Nat
  channelBits : Nat
  viewChannels : Nat
  floats : List ℚ

/-- `load_highres_normalmap` (lines 207–276 of `texture.rs`), modelled
from the decoded image onwards (PNG decoding and the vertical flip are
done by the external `image` crate). -/
def load_highres_normalmap (img : DecodedImage) : HighresNormalmap :=
  { texWidth := img.width / 3
    texHeight := img.height
    levels := 1
    surfaceChannels := 3
    channelBits := 32
    viewChannels := 4
    floats := toFloatVec img.data }

/-! ## Driver loop (`src/vss-desktop/src/main.rs`) -/

/-- The device contract used by `main`: `begin_frame`, the pipeline
`render`, and `end_frame`, which may set the `done` flag.  The state
type `σ` is abstract (device + pipeline + display). -/
structure Device (σ : Type) where
  begin_frame : σ → σ
  render : σ → σ
  end_frame : σ → σ × Bool

/-- Observable events of one driver iteration. -/
inductive FrameEvent where
  | beginF
  | renderF
  | endF (done : Bool)
deriving DecidableEq

/-- The three events of one loop iteration, in source order. -/
def frameTriple (done : Bool) : List FrameEvent :=
  [.beginF, .renderF, .endF done]

/-- The `while !done` loop of `main` (lines 28–33 of `main.rs`),
fuel-indexed: returns the emitted event trace and `some` final state
when the loop exited (because `end_frame` set `done`), or `none` when
the fuel ran out with the loop still running. -/
def driver_loop {σ : Type} (dev : Device σ) : Nat → σ → List FrameEvent × Option σ
  | 0, _ => ([], none)
  | fuel + 1, s =>
    let s1 := dev.begin_frame s
    let s2 := dev.render s1
    let r := dev.end_frame s2
    if r.2 then
      (frameTriple true, some r.1)
    else
      let rest := driver_loop dev fuel r.1
      (frameTriple false ++ rest.1, rest.2)

/-! ## Branch characterization lemmas -/

lemma presbyopiaStep_on (m : ValueMap) (s : PipeData) (p : ℚ)
    (h1 : m "presbyopia_onoff" = some (.bool true))
    (h2 : m "presbyopia_near_point" = some (.number p)) :
    presbyopiaStep m s =
      { s with u_active := 1, u_near_point := p * 10, u_near_vision_factor := 1 } := by
  unfold presbyopiaStep
  rw [h1, h2]

lemma presbyopiaStep_off (m : ValueMap) (s : PipeData)
    (h : m "presbyopia_onoff" ≠ some (.bool true) ∨
      ∀ q : ℚ, m "presbyopia_near_point" ≠ some (.number q)) :
    presbyopiaStep m s = s := by
  unfold presbyopiaStep
  split
  · next heq =>
    split
    · next heq2 =>
      rcases h with h | h
      · exact absurd heq h
      · exact absurd heq2 (h _)
    · rfl
  · rfl

lemma presbyopiaStep_total (m : ValueMap) :
    (∃ p : ℚ, m "presbyopia_onoff" = some (.bool true) ∧
      m "presbyopia_near_point" = some (.number p)) ∨
    (m "presbyopia_onoff" ≠ some (.bool true) ∨
      ∀ q : ℚ, m "presbyopia_near_point" ≠ some (.number q)) := by
  by_cases h1 : m "presbyopia_onoff" = some (.bool true)
  · cases h2 : m "presbyopia_near_point" with
    | none => exact Or.inr (Or.inr fun q => by simp [h2])
    | some v =>
      cases v with
      | bool b => exact Or.inr (Or.inr fun q => by simp [h2])
      | number q => exact Or.inl ⟨q, h1, rfl⟩
  · exact Or.inr (Or.inl h1)

lemma myopiahyperopiaStep_neg (m : ValueMap) (s : PipeData) (mnh : ℚ)
    (h1 : m "myopiahyperopia_onoff" = some (.bool true))
    (h2 : m "myopiahyperopia_mnh" = some (.number mnh))
    (hd : (mnh / 50 - 1) * 3 < 0) :
    myopiahyperopiaStep m s =
      { s with
        u_active := 1
        u_far_point := .fin (-1000 / ((mnh / 50 - 1) * 3))
        u_near_point := min s.u_near_point (-1000 / ((mnh / 50 - 1) * 3))
        u_far_vision_factor :=
          max s.u_far_vision_factor (1 - (mnh / 50 - 1) * 3 * DIOPTRES_SCALING) } := by
  unfold myopiahyperopiaStep
  rw [h1, h2]
  dsimp only
  rw [if_pos hd]
  rfl

lemma myopiahyperopiaStep_pos (m : ValueMap) (s : PipeData) (mnh : ℚ)
    (h1 : m "myopiahyperopia_onoff" = some (.bool true))
    (h2 : m "myopiahyperopia_mnh" = some (.number mnh))
    (hd : (mnh / 50 - 1) * 3 > 0) :
    myopiahyperopiaStep m s =
      { s with
        u_active := 1
        u_near_point := max s.u_near_point (1000 / (4.4 - (mnh / 50 - 1) * 3))
        u_near_vision_factor :=
          max s.u_near_vision_factor (1 + (mnh / 50 - 1) * 3 * DIOPTRES_SCALING) } := by
  unfold myopiahyperopiaStep
  rw [h1, h2]
  dsimp only
  rw [if_neg (not_lt.mpr hd.le), if_pos hd]

lemma myopiahyperopiaStep_zero (m : ValueMap) (s : PipeData) (mnh : ℚ)
    (h1 : m "myopiahyperopia_onoff" = some (.bool true))
    (h2 : m "myopiahyperopia_mnh" = some (.number mnh))
    (hd : (mnh / 50 - 1) * 3 = 0) :
    myopiahyperopiaStep m s = { s with u_active := 1 } := by
  unfold myopiahyperopiaStep
  rw [h1, h2]
  dsimp only
  rw [if_neg (by simp [hd]), if_neg (by simp [hd])]

lemma myopiahyperopiaStep_off (m : ValueMap) (s : PipeData)
    (h : m "myopiahyperopia_onoff" ≠ some (.bool true) ∨
      ∀ q : ℚ, m "myopiahyperopia_mnh" ≠ some (.number q)) :
    myopiahyperopiaStep m s = s := by
  unfold myopiahyperopiaStep
  split
  · next heq =>
    split
    · next heq2 =>
      rcases h with h | h
      · exact absurd heq h
      · exact absurd heq2 (h _)
    · rfl
  · rfl

lemma myopiahyperopiaStep_total (m : ValueMap) :
    (∃ q : ℚ, m "myopiahyperopia_onoff" = some (.bool true) ∧
      m "myopiahyperopia_mnh" = some (.number q)) ∨
    (m "myopiahyperopia_onoff" ≠ some (.bool true) ∨
      ∀ q : ℚ, m "myopiahyperopia_mnh" ≠ some (.number q)) := by
  by_cases h1 : m "myopiahyperopia_onoff" = some (.bool true)
  · cases h2 : m "myopiahyperopia_mnh" with
    | none => exact Or.inr (Or.inr fun q => by simp [h2])
    | some v =>
      cases v with
      | bool b => exact Or.inr (Or.inr fun q => by simp [h2])
      | number q => exact Or.inl ⟨q, h1, rfl⟩
  · exact Or.inr (Or.inl h1)

/-- The nine fields of `pipe::Data` that `update_params` never writes. -/
def passFields (s : PipeData) :
    Int × Int × ℚ × ℚ × (Nat × Nat) × (Nat × Nat) × (Nat × Nat) × (Nat × Nat) × Nat :=
  (s.u_stereo, s.u_samplecount, s.u_depth_min, s.u_depth_max,
    s.s_color, s.s_depth, s.s_normal, s.s_cornea, s.rt_color)

lemma presbyopiaStep_passFields (m : ValueMap) (s : PipeData) :
    passFields (presbyopiaStep m s) = passFields s := by
  rcases presbyopiaStep_total m with ⟨p, h1, h2⟩ | hoff
  · rw [presbyopiaStep_on m s p h1 h2]
    rfl
  · rw [presbyopiaStep_off m s hoff]

lemma myopiahyperopiaStep_passFields (m : ValueMap) (s : PipeData) :
    passFields (myopiahyperopiaStep m s) = passFields s := by
  rcases myopiahyperopiaStep_total m with ⟨q, h1, h2⟩ | hoff
  · rcases lt_trichotomy ((q / 50 - 1) * 3) 0 with hd | hd | hd
    · rw [myopiahyperopiaStep_neg m s q h1 h2 hd]
      rfl
    · rw [myopiahyperopiaStep_zero m s q h1 h2 hd]
      rfl
    · rw [myopiahyperopiaStep_pos m s q h1 h2 hd]
      rfl
  · rw [myopiahyperopiaStep_off m s hoff]

/-- `update_params` touches only the five optical fields: every other
field of `pipe::Data` passes through unchanged. -/
lemma update_params_passFields (s : PipeData) (m : ValueMap) :
    passFields (update_params s m) = passFields s := by
  unfold update_params
  rw [myopiahyperopiaStep_passFields, presbyopiaStep_passFields]
  rfl

/-- The five fields written by `update_params`. -/
def opticalFields (s : PipeData) : Int × ℚ × ExtQ × ℚ × ℚ :=
  (s.u_active, s.u_near_point, s.u_far_point,
    s.u_near_vision_factor, s.u_far_vision_factor)

lemma presbyopiaStep_optical_congr (m : ValueMap) (t t' : PipeData)
    (h : opticalFields t = opticalFields t') :
    opticalFields (presbyopiaStep m t) = opticalFields (presbyopiaStep m t') := by
  simp only [opticalFields, Prod.mk.injEq] at h
  obtain ⟨h1, h2, h3, h4, h5⟩ := h
  rcases presbyopiaStep_total m with ⟨p, g1, g2⟩ | goff
  · rw [presbyopiaStep_on m t p g1 g2, presbyopiaStep_on m t' p g1 g2]
    simp [opticalFields, h3, h5]
  · rw [presbyopiaStep_off m t goff, presbyopiaStep_off m t' goff]
    simp [opticalFields, h1, h2, h3, h4, h5]

lemma myopiahyperopiaStep_optical_congr (m : ValueMap) (t t' : PipeData)
    (h : opticalFields t = opticalFields t') :
    opticalFields (myopiahyperopiaStep m t) = opticalFields (myopiahyperopiaStep m t') := by
  simp only [opticalFields, Prod.mk.injEq] at h
  obtain ⟨h1, h2, h3, h4, h5⟩ := h
  rcases myopiahyperopiaStep_total m with ⟨q, g1, g2⟩ | goff
  · rcases lt_trichotomy ((q / 50 - 1) * 3) 0 with hd | hd | hd
    · rw [myopiahyperopiaStep_neg m t q g1 g2 hd, myopiahyperopiaStep_neg m t' q g1 g2 hd]
      simp [opticalFields, h2, h4, h5]
    · rw [myopiahyperopiaStep_zero m t q g1 g2 hd, myopiahyperopiaStep_zero m t' q g1 g2 hd]
      simp [opticalFields, h2, h3, h4, h5]
    · rw [myopiahyperopiaStep_pos m t q g1 g2 hd, myopiahyperopiaStep_pos m t' q g1 g2 hd]
      simp [opticalFields, h2, h3, h4, h5]
  · rw [myopiahyperopiaStep_off m t goff, myopiahyperopiaStep_off m t' goff]
    simp [opticalFields, h1, h2, h3, h4, h5]

/-- The five optical fields of the result of `update_params` depend only
on the `ValueMap`, never on the starting state. -/
lemma update_params_optical_independent (s s' : PipeData) (m : ValueMap) :
    opticalFields (update_params s m) = opticalFields (update_params s' m) := by
  unfold update_params
  exact myopiahyperopiaStep_optical_congr m _ _
    (presbyopiaStep_optical_congr m _ _ rfl)

lemma resetDefaults_idem (s : PipeData) :
    resetDefaults (resetDefaults s) = resetDefaults s := rfl

lemma resetDefaults_after (s : PipeData) (m : ValueMap) :
    resetDefaults (update_params s m) = resetDefaults s := by
  have h := update_params_passFields s m
  simp only [passFields, Prod.mk.injEq] at h
  obtain ⟨e1, e2, e3, e4, e5, e6, e7, e8, e9⟩ := h
  ext
  all_goals simp [resetDefaults, e1, e2, e3, e4, e5, e6, e7, e8, e9]

lemma presbyopiaStep_congr (m1 m2 : ValueMap) (s : PipeData)
    (h1 : m1 "presbyopia_onoff" = m2 "presbyopia_onoff")
    (h2 : m1 "presbyopia_near_point" = m2 "presbyopia_near_point") :
    presbyopiaStep m1 s = presbyopiaStep m2 s := by
  unfold presbyopiaStep
  rw [h1, h2]

lemma myopiahyperopiaStep_congr (m1 m2 : ValueMap) (s : PipeData)
    (h1 : m1 "myopiahyperopia_onoff" = m2 "myopiahyperopia_onoff")
    (h2 : m1 "myopiahyperopia_mnh" = m2 "myopiahyperopia_mnh") :
    myopiahyperopiaStep m1 s = myopiahyperopiaStep m2 s := by
  unfold myopiahyperopiaStep
  rw [h1, h2]

/-! ## Concrete inputs used by witnesses and counterexamples -/

/-- A `ValueMap` with no keys set. -/
def emptyMap : ValueMap := fun _ => none

/-- Presbyopia on with near-point dial 50, myopia/hyperopia off. -/
def presbMap : ValueMap := fun k =>
  if k = "presbyopia_onoff" then some (.bool true)
  else if k = "presbyopia_near_point" then some (.number 50)
  else none

/-- Myopia on with dial 0 (full myopia, −3 diopters), presbyopia off. -/
def myopMap : ValueMap := fun k =>
  if k = "myopiahyperopia_onoff" then some (.bool true)
  else if k = "myopiahyperopia_mnh" then some (.number 0)
  else none

/-- Both impairments on: presbyopia dial 100, myopia dial 0. -/
def bothMap : ValueMap := fun k =>
  if k = "presbyopia_onoff" then some (.bool true)
  else if k = "presbyopia_near_point" then some (.number 100)
  else if k = "myopiahyperopia_onoff" then some (.bool true)
  else if k = "myopiahyperopia_mnh" then some (.number 0)
  else none

/-- A `ValueMap` whose `presbyopia_onoff` key holds a `Number` (the
wrong dynamic type for a toggle). -/
def wrongMap : ValueMap := fun k =>
  if k = "presbyopia_onoff" then some (.number 5)
  else if k = "presbyopia_near_point" then some (.number 50)
  else none

/-- A state with non-default `u_stereo` and `u_depth_min`, as left by a
previous `update_io` / construction. -/
def stereoState : PipeData :=
  { initPipeData with u_stereo := 1, u_depth_min := 42 }

/-- A 3×1 decoded RGBA test image (12 bytes, three pixels). -/
def testImg : DecodedImage :=
  { width := 3, height := 1
    data := [255, 0, 0, 0, 0, 255, 0, 0, 1, 2, 3, 4] }

/-! ## Claim theorems -/

/-- C7: `update_io` fails fatally (modelled as `none`) on every
`DeviceSource::Yuv` source; on `Rgb` it succeeds, rebinding the color
input and the render target (and recording stereo); on `RgbDepth` it
additionally rebinds the depth input. -/
theorem update_io_spec (s : PipeData) (target : Nat) (ts : Nat × Nat)
    (sampler : Nat) (ss : Nat × Nat) (stereo : Bool) :
    (∀ y u v : Nat, update_io s target ts (.yuv y u v) sampler ss stereo = none) ∧
    (∀ rgba8 : Nat, ∃ s' : PipeData,
      update_io s target ts (.rgb rgba8) sampler ss stereo = some s' ∧
      s'.s_color = (rgba8, sampler) ∧ s'.rt_color = target ∧
      s'.u_stereo = (if stereo then 1 else 0)) ∧
    (∀ rgba8 d : Nat, ∃ s' : PipeData,
      update_io s target ts (.rgbDepth rgba8 d) sampler ss stereo = some s' ∧
      s'.s_color = (rgba8, sampler) ∧ s'.s_depth = (d, sampler) ∧
      s'.rt_color = target ∧ s'.u_stereo = (if stereo then 1 else 0)) := by
  refine ⟨fun y u v => rfl, fun rgba8 => ⟨_, rfl, rfl, rfl, rfl⟩,
    fun rgba8 d => ⟨_, rfl, rfl, rfl, rfl, rfl⟩⟩

/-- C8: `update_params` is deterministic (a pure function of state and
`ValueMap`: two calls from the same state with the same map are the same
term, hence yield identical results) and idempotent: running it twice in
a row with the same `ValueMap` equals running it once. -/
theorem update_params_idempotent (s : PipeData) (m : ValueMap) :
    update_params (update_params s m) m = update_params s m ∧
    update_params s m = update_params s m := by
  constructor
  · show myopiahyperopiaStep m (presbyopiaStep m (resetDefaults (update_params s m))) =
      update_params s m
    rw [resetDefaults_after]
    rfl
  · rfl

/-- C2 counterexample: with presbyopia on (`p = 100`) and myopia also
active (`mnh = 0`), the final `near_point` is `min(1000, 1000/3) = 1000/3`,
not `p * 10 = 1000`, so the claim fails as stated. -/
theorem update_params_presbyopia_counterexample :
    bothMap "presbyopia_onoff" = some (.bool true) ∧
    bothMap "presbyopia_near_point" = some (.number 100) ∧
    (update_params initPipeData bothMap).u_near_point ≠ 100 * 10 := by
  refine ⟨rfl, rfl, ?_⟩
  have hp := presbyopiaStep_on bothMap (resetDefaults initPipeData) 100 rfl rfl
  have hm := myopiahyperopiaStep_neg bothMap
    (presbyopiaStep bothMap (resetDefaults initPipeData)) 0 rfl rfl (by norm_num)
  show (myopiahyperopiaStep bothMap
    (presbyopiaStep bothMap (resetDefaults initPipeData))).u_near_point ≠ 100 * 10
  rw [hm]
  simp only [hp]
  norm_num

/-- C2 (amended): if `presbyopia_onoff` is `Bool(true)` and
`presbyopia_near_point` is a `Number p`, and the myopia/hyperopia branch
is not simultaneously active, then `update_params` sets `active = 1`,
`near_point = p * 10` and `near_vision_factor = 1`. -/
theorem update_params_presbyopia_spec (s : PipeData) (m : ValueMap) (p : ℚ)
    (h1 : m "presbyopia_onoff" = some (.bool true))
    (h2 : m "presbyopia_near_point" = some (.number p))
    (h3 : m "myopiahyperopia_onoff" ≠ some (.bool true) ∨
      ∀ q : ℚ, m "myopiahyperopia_mnh" ≠ some (.number q)) :
    (update_params s m).u_active = 1 ∧
    (update_params s m).u_near_point = p * 10 ∧
    (update_params s m).u_near_vision_factor = 1 := by
  unfold update_params
  rw [myopiahyperopiaStep_off m _ h3, presbyopiaStep_on m _ p h1 h2]
  exact ⟨rfl, rfl, rfl⟩

/-- Witness for the amended C2 at `p = 50` (the spec's concrete
scenario: `near_point = 500`, `near_vision_factor = 1`). -/
theorem update_params_presbyopia_witness :
    presbMap "presbyopia_onoff" = some (.bool true) ∧
    presbMap "presbyopia_near_point" = some (.number 50) ∧
    presbMap "myopiahyperopia_onoff" ≠ some (.bool true) ∧
    (update_params initPipeData presbMap).u_active = 1 ∧
    (update_params initPipeData presbMap).u_near_point = 500 ∧
    (update_params initPipeData presbMap).u_near_vision_factor = 1 := by
  have h := update_params_presbyopia_spec initPipeData presbMap 50 rfl rfl
    (Or.inl (by decide))
  refine ⟨rfl, rfl, by decide, h.1, ?_, h.2.2⟩
  rw [h.2.1]
  norm_num

/-- C3: when neither toggle is `Bool(true)` (or the corresponding value
key is absent), `update_params` leaves the optical uniforms in the exact
pass-through default state. -/
theorem update_params_default_spec (s : PipeData) (m : ValueMap)
    (h1 : m "presbyopia_onoff" ≠ some (.bool true) ∨
      m "presbyopia_near_point" = none)
    (h2 : m "myopiahyperopia_onoff" ≠ some (.bool true) ∨
      m "myopiahyperopia_mnh" = none) :
    (update_params s m).u_active = 0 ∧
    (update_params s m).u_near_point = 0 ∧
    (update_params s m).u_far_point = .inf ∧
    (update_params s m).u_near_vision_factor = 0 ∧
    (update_params s m).u_far_vision_factor = 0 := by
  have h1' : m "presbyopia_onoff" ≠ some (.bool true) ∨
      ∀ q : ℚ, m "presbyopia_near_point" ≠ some (.number q) := by
    rcases h1 with h | h
    · exact Or.inl h
    · exact Or.inr fun q => by simp [h]
  have h2' : m "myopiahyperopia_onoff" ≠ some (.bool true) ∨
      ∀ q : ℚ, m "myopiahyperopia_mnh" ≠ some (.number q) := by
    rcases h2 with h | h
    · exact Or.inl h
    · exact Or.inr fun q => by simp [h]
  unfold update_params
  rw [myopiahyperopiaStep_off m _ h2', presbyopiaStep_off m _ h1']
  exact ⟨rfl, rfl, rfl, rfl, rfl⟩

/-- Witness for C3 at the empty `ValueMap`. -/
theorem update_params_default_witness :
    emptyMap "presbyopia_near_point" = none ∧
    emptyMap "myopiahyperopia_mnh" = none ∧
    (update_params initPipeData emptyMap).u_active = 0 ∧
    (update_params initPipeData emptyMap).u_near_point = 0 ∧
    (update_params initPipeData emptyMap).u_far_point = .inf ∧
    (update_params initPipeData emptyMap).u_near_vision_factor = 0 ∧
    (update_params initPipeData emptyMap).u_far_vision_factor = 0 := by
  have h := update_params_default_spec initPipeData emptyMap
    (Or.inr rfl) (Or.inr rfl)
  exact ⟨rfl, rfl, h.1, h.2.1, h.2.2.1, h.2.2.2.1, h.2.2.2.2⟩

/-- C1: with `myopiahyperopia_onoff = Bool(true)` and
`myopiahyperopia_mnh = Number mnh`, `update_params` sets `active = 1`
and computes `d = (mnh/50 - 1) * 3`; for `d < 0` it sets
`far_point = -1000/d`, clamps `near_point = min(prior near_point,
far_point)` and raises `far_vision_factor = max(prior, 1 - d·K)`;
for `d > 0` it sets `near_point = max(prior, 1000/(4.4 - d))` and
`near_vision_factor = max(prior, 1 + d·K)`; for `d = 0` no focus point
or vision factor changes.  "Prior" is the state after the defaults
reset and the presbyopia step, and `K = DIOPTRES_SCALING`. -/
theorem update_params_myopiahyperopia_spec (s : PipeData) (m : ValueMap) (mnh : ℚ)
    (h1 : m "myopiahyperopia_onoff" = some (.bool true))
    (h2 : m "myopiahyperopia_mnh" = some (.number mnh)) :
    DIOPTRES_SCALING = 0.332763369417523 ∧
    (update_params s m).u_active = 1 ∧
    ((mnh / 50 - 1) * 3 < 0 →
      (update_params s m).u_far_point = .fin (-1000 / ((mnh / 50 - 1) * 3)) ∧
      (update_params s m).u_near_point =
        min (presbyopiaStep m (resetDefaults s)).u_near_point
          (-1000 / ((mnh / 50 - 1) * 3)) ∧
      (update_params s m).u_far_vision_factor =
        max (presbyopiaStep m (resetDefaults s)).u_far_vision_factor
          (1 - (mnh / 50 - 1) * 3 * DIOPTRES_SCALING)) ∧
    ((mnh / 50 - 1) * 3 > 0 →
      (update_params s m).u_near_point =
        max (presbyopiaStep m (resetDefaults s)).u_near_point
          (1000 / (4.4 - (mnh / 50 - 1) * 3)) ∧
      (update_params s m).u_near_vision_factor =
        max (presbyopiaStep m (resetDefaults s)).u_near_vision_factor
          (1 + (mnh / 50 - 1) * 3 * DIOPTRES_SCALING)) ∧
    ((mnh / 50 - 1) * 3 = 0 →
      (update_params s m).u_near_point =
        (presbyopiaStep m (resetDefaults s)).u_near_point ∧
      (update_params s m).u_far_point =
        (presbyopiaStep m (resetDefaults s)).u_far_point ∧
      (update_params s m).u_near_vision_factor =
        (presbyopiaStep m (resetDefaults s)).u_near_vision_factor ∧
      (update_params s m).u_far_vision_factor =
        (presbyopiaStep m (resetDefaults s)).u_far_vision_factor) := by
  unfold update_params
  refine ⟨rfl, ?_, ?_, ?_, ?_⟩
  · rcases lt_trichotomy ((mnh / 50 - 1) * 3) 0 with hd | hd | hd
    · rw [myopiahyperopiaStep_neg m _ mnh h1 h2 hd]
    · rw [myopiahyperopiaStep_zero m _ mnh h1 h2 hd]
    · rw [myopiahyperopiaStep_pos m _ mnh h1 h2 hd]
  · intro hd
    rw [myopiahyperopiaStep_neg m _ mnh h1 h2 hd]
    exact ⟨rfl, rfl, rfl⟩
  · intro hd
    rw [myopiahyperopiaStep_pos m _ mnh h1 h2 hd]
    exact ⟨rfl, rfl⟩
  · intro hd
    rw [myopiahyperopiaStep_zero m _ mnh h1 h2 hd]
    exact ⟨rfl, rfl, rfl, rfl⟩

/-- Witness for C1 at `mnh = 0` (pure myopia, `d = -3`): `active = 1`
and `far_point = 1000/3`, the spec's concrete scenario. -/
theorem update_params_myopiahyperopia_witness :
    myopMap "myopiahyperopia_onoff" = some (.bool true) ∧
    myopMap "myopiahyperopia_mnh" = some (.number 0) ∧
    (update_params initPipeData myopMap).u_active = 1 ∧
    (update_params initPipeData myopMap).u_far_point = .fin (1000 / 3) := by
  have h := update_params_myopiahyperopia_spec initPipeData myopMap 0 rfl rfl
  refine ⟨rfl, rfl, h.2.1, ?_⟩
  have h2 := (h.2.2.1 (by norm_num)).1
  rw [h2]
  norm_num

/-- C5 counterexample: `update_params` does not reset `u_stereo` (nor
`u_depth_min`/`u_depth_max`): starting from a state with `u_stereo = 1`
and `u_depth_min = 42`, both values survive the call unchanged instead
of returning to the defaults `0` and `200`. -/
theorem update_params_no_full_reset :
    (update_params stereoState emptyMap).u_stereo = 1 ∧
    (update_params stereoState emptyMap).u_stereo ≠ initPipeData.u_stereo ∧
    (update_params stereoState emptyMap).u_depth_min = 42 ∧
    (update_params stereoState emptyMap).u_depth_min ≠ initPipeData.u_depth_min := by
  have h1 : presbyopiaStep emptyMap (resetDefaults stereoState) =
      resetDefaults stereoState :=
    presbyopiaStep_off _ _ (Or.inl (by simp [emptyMap]))
  have h2 : myopiahyperopiaStep emptyMap (resetDefaults stereoState) =
      resetDefaults stereoState :=
    myopiahyperopiaStep_off _ _ (Or.inl (by simp [emptyMap]))
  show (myopiahyperopiaStep emptyMap (presbyopiaStep emptyMap
    (resetDefaults stereoState))).u_stereo = 1 ∧ _
  rw [h1, h2]
  exact ⟨rfl, by decide, rfl, by decide⟩

/-- C5 (amended): `update_params` resets only the five optical fields
(`active`, `near_point`, `far_point`, `near_vision_factor`,
`far_vision_factor`) to their pass-through defaults before applying the
two branches — running it from `s` and from `resetDefaults s` is
indistinguishable, and the five optical result fields depend only on
the current `ValueMap`, never on the previous state; `stereo`,
`samplecount`, `depth_min`, `depth_max` and the texture bindings are
left untouched. -/
theorem update_params_reset_spec (s s' : PipeData) (m : ValueMap) :
    (update_params s m).u_stereo = s.u_stereo ∧
    (update_params s m).u_samplecount = s.u_samplecount ∧
    (update_params s m).u_depth_min = s.u_depth_min ∧
    (update_params s m).u_depth_max = s.u_depth_max ∧
    (update_params s m).s_color = s.s_color ∧
    (update_params s m).s_depth = s.s_depth ∧
    (update_params s m).s_normal = s.s_normal ∧
    (update_params s m).s_cornea = s.s_cornea ∧
    (update_params s m).rt_color = s.rt_color ∧
    update_params s m = update_params (resetDefaults s) m ∧
    (update_params s m).u_active = (update_params s' m).u_active ∧
    (update_params s m).u_near_point = (update_params s' m).u_near_point ∧
    (update_params s m).u_far_point = (update_params s' m).u_far_point ∧
    (update_params s m).u_near_vision_factor =
      (update_params s' m).u_near_vision_factor ∧
    (update_params s m).u_far_vision_factor =
      (update_params s' m).u_far_vision_factor := by
  have hpass := update_params_passFields s m
  simp only [passFields, Prod.mk.injEq] at hpass
  obtain ⟨e1, e2, e3, e4, e5, e6, e7, e8, e9⟩ := hpass
  have hind := update_params_optical_independent s s' m
  simp only [opticalFields, Prod.mk.injEq] at hind
  obtain ⟨f1, f2, f3, f4, f5⟩ := hind
  refine ⟨e1, e2, e3, e4, e5, e6, e7, e8, e9, ?_, f1, f2, f3, f4, f5⟩
  show myopiahyperopiaStep m (presbyopiaStep m (resetDefaults s)) =
    myopiahyperopiaStep m (presbyopiaStep m (resetDefaults (resetDefaults s)))
  rw [resetDefaults_idem]

/-- The documented 0–100 dial range for a numeric parameter value. -/
def dialInRange (o : Option Value) : Prop :=
  ∀ q : ℚ, o = some (.number q) → 0 ≤ q ∧ q ≤ 100

lemma vision_factor_bounds (d : ℚ) (hlo : -3 ≤ d) (hhi : d ≤ 3) :
    (d < 0 → 0 ≤ 1 - d * DIOPTRES_SCALING ∧ 1 - d * DIOPTRES_SCALING ≤ 2) ∧
    (0 < d → 0 ≤ 1 + d * DIOPTRES_SCALING ∧ 1 + d * DIOPTRES_SCALING ≤ 2) := by
  have hK : (0:ℚ) < DIOPTRES_SCALING ∧ DIOPTRES_SCALING ≤ 1 / 3 := by
    norm_num [DIOPTRES_SCALING]
  constructor
  · intro hd
    have h1 : -d * DIOPTRES_SCALING ≤ 3 * (1 / 3) :=
      mul_le_mul (by linarith) hK.2 hK.1.le (by norm_num)
    have h2 : 0 ≤ -d * DIOPTRES_SCALING := mul_nonneg (by linarith) hK.1.le
    constructor <;> nlinarith
  · intro hd
    have h1 : d * DIOPTRES_SCALING ≤ 3 * (1 / 3) :=
      mul_le_mul hhi hK.2 hK.1.le (by norm_num)
    have h2 : 0 ≤ d * DIOPTRES_SCALING := mul_nonneg (by linarith) hK.1.le
    constructor <;> nlinarith

/-- C4: after any `update_params` call whose numeric dial parameters lie
in the documented 0–100 range, the resulting uniforms satisfy
`near_point ≤ far_point` and both vision factors lie in `[0, 2]`. -/
theorem update_params_invariant (s : PipeData) (m : ValueMap)
    (hp : dialInRange (m "presbyopia_near_point"))
    (hm : dialInRange (m "myopiahyperopia_mnh")) :
    ExtQ.leFin (update_params s m).u_near_point (update_params s m).u_far_point ∧
    0 ≤ (update_params s m).u_near_vision_factor ∧
    (update_params s m).u_near_vision_factor ≤ 2 ∧
    0 ≤ (update_params s m).u_far_vision_factor ∧
    (update_params s m).u_far_vision_factor ≤ 2 := by
  unfold update_params
  obtain ⟨hfar, hfvf, hnvf⟩ :
      (presbyopiaStep m (resetDefaults s)).u_far_point = .inf ∧
      (presbyopiaStep m (resetDefaults s)).u_far_vision_factor = 0 ∧
      ((presbyopiaStep m (resetDefaults s)).u_near_vision_factor = 0 ∨
        (presbyopiaStep m (resetDefaults s)).u_near_vision_factor = 1) := by
    rcases presbyopiaStep_total m with ⟨p, g1, g2⟩ | goff
    · rw [presbyopiaStep_on m _ p g1 g2]
      exact ⟨rfl, rfl, Or.inr rfl⟩
    · rw [presbyopiaStep_off m _ goff]
      exact ⟨rfl, rfl, Or.inl rfl⟩
  have hnvf02 : 0 ≤ (presbyopiaStep m (resetDefaults s)).u_near_vision_factor ∧
      (presbyopiaStep m (resetDefaults s)).u_near_vision_factor ≤ 2 := by
    rcases hnvf with h | h <;> rw [h] <;> norm_num
  rcases myopiahyperopiaStep_total m with ⟨q, g1, g2⟩ | goff
  · obtain ⟨hq0, hq1⟩ := hm q g2
    have hdlo : (-3:ℚ) ≤ (q / 50 - 1) * 3 := by linarith
    have hdhi : (q / 50 - 1) * 3 ≤ 3 := by linarith
    have hvb := vision_factor_bounds ((q / 50 - 1) * 3) hdlo hdhi
    rcases lt_trichotomy ((q / 50 - 1) * 3) 0 with hd | hd | hd
    · rw [myopiahyperopiaStep_neg m _ q g1 g2 hd]
      obtain ⟨hb0, hb2⟩ := hvb.1 hd
      refine ⟨?_, ?_, ?_, ?_, ?_⟩
      · simp [ExtQ.leFin, min_le_right]
      · simpa using hnvf02.1
      · simpa using hnvf02.2
      · simp only [hfvf]
        exact le_max_of_le_right hb0
      · simp only [hfvf]
        exact max_le (by norm_num) hb2
    · rw [myopiahyperopiaStep_zero m _ q g1 g2 hd]
      refine ⟨?_, ?_, ?_, ?_, ?_⟩
      · simp [ExtQ.leFin, hfar]
      · simpa using hnvf02.1
      · simpa using hnvf02.2
      · simp [hfvf]
      · simp [hfvf]
    · rw [myopiahyperopiaStep_pos m _ q g1 g2 hd]
      obtain ⟨hb0, hb2⟩ := hvb.2 hd
      refine ⟨?_, ?_, ?_, ?_, ?_⟩
      · simp [ExtQ.leFin, hfar]
      · simp only [hfvf]
        exact le_max_of_le_right hb0
      · simp only []
        exact max_le hnvf02.2 hb2
      · simp [hfvf]
      · simp [hfvf]
  · rw [myopiahyperopiaStep_off m _ goff]
    refine ⟨?_, hnvf02.1, hnvf02.2, ?_, ?_⟩
    · simp [ExtQ.leFin, hfar]
    · simp [hfvf]
    · simp [hfvf]

/-- Witness for C4 at `myopMap` (`mnh = 0`, in range). -/
theorem update_params_invariant_witness :
    dialInRange (myopMap "presbyopia_near_point") ∧
    dialInRange (myopMap "myopiahyperopia_mnh") ∧
    ExtQ.leFin (update_params initPipeData myopMap).u_near_point
      (update_params initPipeData myopMap).u_far_point ∧
    0 ≤ (update_params initPipeData myopMap).u_near_vision_factor ∧
    (update_params initPipeData myopMap).u_near_vision_factor ≤ 2 ∧
    0 ≤ (update_params initPipeData myopMap).u_far_vision_factor ∧
    (update_params initPipeData myopMap).u_far_vision_factor ≤ 2 := by
  have hp : dialInRange (myopMap "presbyopia_near_point") := by
    intro p h
    simp [myopMap] at h
  have hq : dialInRange (myopMap "myopiahyperopia_mnh") := by
    intro q h
    simp [myopMap] at h
    subst h
    norm_num
  exact ⟨hp, hq, update_params_invariant initPipeData myopMap hp hq⟩

/-- A recognized parameter key holding a value of the wrong dynamic
type: a toggle key holding a `Number` or `Bool(false)`, or a value key
holding a `Bool`. -/
def wrongTyped (k : String) (v : Value) : Prop :=
  ((k = "presbyopia_onoff" ∨ k = "myopiahyperopia_onoff") ∧
    ((∃ q : ℚ, v = .number q) ∨ v = .bool false)) ∨
  ((k = "presbyopia_near_point" ∨ k = "myopiahyperopia_mnh") ∧
    ∃ b : Bool, v = .bool b)

/-- Removal of a key from a `ValueMap`. -/
def eraseKey (m : ValueMap) (k : String) : ValueMap :=
  fun x => if x = k then none else m x

/-- C10: a recognized key holding a wrongly-typed value behaves exactly
as if the key were absent — `update_params` returns the same uniforms
and raises no error. -/
theorem update_params_wrong_type_ignored (s : PipeData) (m : ValueMap)
    (k : String) (v : Value) (hget : m k = some v) (hw : wrongTyped k v) :
    update_params s m = update_params s (eraseKey m k) := by
  rcases hw with ⟨hk | hk, hv⟩ | ⟨hk | hk, b, hv⟩
  · -- presbyopia_onoff holds a Number or Bool(false)
    subst hk
    have hne : m "presbyopia_onoff" ≠ some (.bool true) := by
      rw [hget]
      rcases hv with ⟨q, rfl⟩ | rfl <;> simp
    unfold update_params
    rw [presbyopiaStep_off m _ (Or.inl hne),
      presbyopiaStep_off (eraseKey m "presbyopia_onoff") _
        (Or.inl (by simp [eraseKey]))]
    exact myopiahyperopiaStep_congr m (eraseKey m "presbyopia_onoff") _
      (by simp [eraseKey]) (by simp [eraseKey])
  · -- myopiahyperopia_onoff holds a Number or Bool(false)
    subst hk
    have hne : m "myopiahyperopia_onoff" ≠ some (.bool true) := by
      rw [hget]
      rcases hv with ⟨q, rfl⟩ | rfl <;> simp
    unfold update_params
    rw [myopiahyperopiaStep_off m _ (Or.inl hne),
      myopiahyperopiaStep_off (eraseKey m "myopiahyperopia_onoff") _
        (Or.inl (by simp [eraseKey]))]
    exact presbyopiaStep_congr m (eraseKey m "myopiahyperopia_onoff") _
      (by simp [eraseKey]) (by simp [eraseKey])
  · -- presbyopia_near_point holds a Bool
    subst hk hv
    unfold update_params
    rw [presbyopiaStep_off m _ (Or.inr fun q => by simp [hget]),
      presbyopiaStep_off (eraseKey m "presbyopia_near_point") _
        (Or.inr fun q => by simp [eraseKey])]
    exact myopiahyperopiaStep_congr m (eraseKey m "presbyopia_near_point") _
      (by simp [eraseKey]) (by simp [eraseKey])
  · -- myopiahyperopia_mnh holds a Bool
    subst hk hv
    unfold update_params
    rw [myopiahyperopiaStep_off m _ (Or.inr fun q => by simp [hget]),
      myopiahyperopiaStep_off (eraseKey m "myopiahyperopia_mnh") _
        (Or.inr fun q => by simp [eraseKey])]
    exact presbyopiaStep_congr m (eraseKey m "myopiahyperopia_mnh") _
      (by simp [eraseKey]) (by simp [eraseKey])

/-- Witness for C10: `presbyopia_onoff` holding `Number 5` is ignored. -/
theorem update_params_wrong_type_witness :
    wrongMap "presbyopia_onoff" = some (.number 5) ∧
    wrongTyped "presbyopia_onoff" (.number 5) ∧
    update_params initPipeData wrongMap =
      update_params initPipeData (eraseKey wrongMap "presbyopia_onoff") := by
  refine ⟨rfl, Or.inl ⟨Or.inl rfl, Or.inl ⟨5, rfl⟩⟩, ?_⟩
  exact update_params_wrong_type_ignored initPipeData wrongMap
    "presbyopia_onoff" (.number 5) rfl (Or.inl ⟨Or.inl rfl, Or.inl ⟨5, rfl⟩⟩)

/-- C6: for a decoded normal-map image of width `3N` and height `M`,
`load_highres_normalmap` packs each RGBA pixel into the 32-bit value
`alpha<<24 | red<<16 | green<<8 | blue`, divides by `2^32 - 1` to get a
float in `[0,1]` (exact rational model of the `f32` arithmetic), and
produces a 32-bit-float texture viewed with 4 channels whose width is
the decoded width divided by 3. -/
theorem load_highres_normalmap_spec (img : DecodedImage) (N M : Nat)
    (hw : img.width = 3 * N) (hh : img.height = M) :
    (load_highres_normalmap img).texWidth = N ∧
    (load_highres_normalmap img).texHeight = M ∧
    (load_highres_normalmap img).viewChannels = 4 ∧
    (load_highres_normalmap img).channelBits = 32 ∧
    (load_highres_normalmap img).floats.length = img.data.length / 4 ∧
    ∀ (i : Nat) (h : i < (load_highres_normalmap img).floats.length),
      (load_highres_normalmap img).floats[i] =
        (pack32 img.data i : ℚ) / (2 ^ 32 - 1) := by
  refine ⟨?_, ?_, rfl, rfl, ?_, ?_⟩
  · simp [load_highres_normalmap, hw, Nat.mul_div_cancel_left]
  · simp [load_highres_normalmap, hh]
  · simp [load_highres_normalmap, toFloatVec]
  · intro i h
    simp only [load_highres_normalmap, toFloatVec] at h ⊢
    simp only [List.length_map, List.length_range] at h
    rw [List.getElem_map, List.getElem_range]

/-- Witness for C6 at a concrete 3×1 image: width collapses to 1 and
the first float is `(0<<24 | 255<<16 | 0<<8 | 0) / (2^32 - 1)`. -/
theorem load_highres_normalmap_witness :
    testImg.width = 3 * 1 ∧ testImg.height = 1 ∧
    (load_highres_normalmap testImg).texWidth = 1 ∧
    (load_highres_normalmap testImg).texHeight = 1 ∧
    (load_highres_normalmap testImg).viewChannels = 4 ∧
    (load_highres_normalmap testImg).channelBits = 32 ∧
    (load_highres_normalmap testImg).floats.length = 3 ∧
    (load_highres_normalmap testImg).floats.get ⟨0, by decide⟩ =
      (16711680 : ℚ) / (2 ^ 32 - 1) := by
  have h := load_highres_normalmap_spec testImg 1 1 rfl rfl
  refine ⟨rfl, rfl, h.1, h.2.1, h.2.2.1, h.2.2.2.1, ?_, ?_⟩
  · rw [h.2.2.2.2.1]
    rfl
  · have h6 := h.2.2.2.2.2 0 (by decide)
    have hp : pack32 testImg.data 0 = 16711680 := rfl
    refine h6.trans ?_
    rw [hp]
    norm_num

/-- C9: every iteration of the driver loop in `main` emits
`begin_frame`, `render`, `end_frame` in that order, and the loop exits
exactly when `end_frame` reports `done = true`: if the loop is still
running every `end_frame` so far reported `false`, and if it exited, the
trace is a sequence of all-`false` iterations followed by a single
iteration whose `end_frame` reported `true` — there is no other exit
path. -/
theorem driver_loop_spec {σ : Type} (dev : Device σ) (fuel : Nat) (s : σ) :
    ∃ n : Nat,
      ((driver_loop dev fuel s).1 = (List.replicate n (frameTriple false)).flatten ∧
        (driver_loop dev fuel s).2 = none) ∨
      ((driver_loop dev fuel s).1 =
          (List.replicate n (frameTriple false)).flatten ++ frameTriple true ∧
        ∃ s' : σ, (driver_loop dev fuel s).2 = some s') := by
  induction fuel generalizing s with
  | zero => exact ⟨0, Or.inl ⟨rfl, rfl⟩⟩
  | succ fuel ih =>
    cases hdone : (dev.end_frame (dev.render (dev.begin_frame s))).2 with
    | true =>
      refine ⟨0, Or.inr ⟨?_, (dev.end_frame (dev.render (dev.begin_frame s))).1, ?_⟩⟩
      · simp [driver_loop, hdone]
      · simp [driver_loop, hdone]
    | false =>
      obtain ⟨n, hcase⟩ := ih ((dev.end_frame (dev.render (dev.begin_frame s))).1)
      rcases hcase with ⟨h1, h2⟩ | ⟨h1, s', h2⟩
      · refine ⟨n + 1, Or.inl ⟨?_, ?_⟩⟩
        · simp [driver_loop, hdone, h1, List.replicate_succ]
        · simp [driver_loop, hdone, h2]
      · refine ⟨n + 1, Or.inr ⟨?_, s', ?_⟩⟩
        · simp [driver_loop, hdone, h1, List.replicate_succ]
        · simp [driver_loop, hdone, h2]

end VSS
